import Mathlib

/-!
Verification development for the tg-img HTTP relay.

The repository contains three request handlers:

* `src/unnamed/part_000` holds two routes for file retrieval/upload
  (referred to below as variant A, the first document in the file, and
  variant B, the second document);
* `src/unnamed/part_001` holds an upload route (the part_001 variant);
* `src/src/app/api/tgchannel/route.js` holds another upload route
  (the routeJs variant).

The handlers are shallowly embedded: the outcomes of every external
collaborator (the Telegram messaging backend, the moderation rating API
and the D1 relational store) are inputs of the embedded functions, and
each handler additionally returns the list of side-effect calls it
issues, in program order, so that claims about which calls are made can
be stated.  JavaScript truthiness, nullish coalescing and the placement
of try/catch blocks are reproduced faithfully from the source.
-/

namespace TgImg

/-- One entry of the `photo` array of a Telegram sendPhoto result. -/
structure PhotoSize where
  file_id : String
  file_unique_id : String
  file_size : Nat
deriving Repr, DecidableEq

/-- A single file object of a Telegram result (`document`, `video` or
`audio` field).  `file_name` is optional; the source falls back to
`file_unique_id` when it is absent or falsy. -/
structure TgFile where
  file_id : String
  file_unique_id : String
  file_name : Option String
deriving Repr, DecidableEq

/-- The `result` object of a Telegram bot API response, restricted to the
fields the handlers read.  `none` models an absent (hence falsy) field;
`some` models a present field (a present array is truthy even when it is
empty, which the embedding keeps). -/
structure TgResult where
  photo : Option (List PhotoSize)
  video : Option TgFile
  document : Option TgFile
  audio : Option TgFile
deriving Repr, DecidableEq

/-- A parsed Telegram bot API response body: the `ok` flag plus the
`result` payload. -/
structure TgResponse where
  ok : Bool
  result : TgResult
deriving Repr, DecidableEq

/-- The file identity extracted from an upload response. -/
structure FileData where
  file_id : String
  file_name : String
deriving Repr, DecidableEq

/-- JavaScript `file.file_name || file.file_unique_id`: an absent or
empty (falsy) `file_name` falls back to `file_unique_id`. -/
def jsFileName (f : TgFile) : String :=
  match f.file_name with
  | some n => if n = "" then f.file_unique_id else n
  | none => f.file_unique_id

/-- The `Array.prototype.reduce` call of the photo branch:
`photo.reduce((prev, current) => (prev.file_size > current.file_size) ? prev : current)`.
With no initial accumulator, the first element seeds the fold. -/
def reduceLargest (p : PhotoSize) (ps : List PhotoSize) : PhotoSize :=
  ps.foldl (fun prev current =>
    if prev.file_size > current.file_size then prev else current) p

/-- Outcome of the part_000/part_001 `extractFileData` helper, which has
no internal try/catch: it can return data, return `null`, or throw (the
`reduce` of an empty but present `photo` array throws a TypeError that
propagates to the caller). -/
inductive ExtractOutcome
  | ok (fd : FileData)
  | nullData
  | thrown
deriving Repr, DecidableEq

/-- `extractFileData` from part_000 (variant A) and part_001 (the two
sources are textually identical): a not-ok response yields `null`; a
present `photo` array takes the reduce over photo sizes; otherwise the
first truthy of `document || video || audio` is used; else `null`. -/
def extractFileData (r : TgResponse) : ExtractOutcome :=
  if !r.ok then .nullData
  else
    match r.result.photo with
    | some [] => .thrown
    | some (p :: ps) =>
      let largestPhoto := reduceLargest p ps
      .ok ⟨largestPhoto.file_id, largestPhoto.file_unique_id⟩
    | none =>
      match r.result.document with
      | some f => .ok ⟨f.file_id, jsFileName f⟩
      | none =>
        match r.result.video with
        | some f => .ok ⟨f.file_id, jsFileName f⟩
        | none =>
          match r.result.audio with
          | some f => .ok ⟨f.file_id, jsFileName f⟩
          | none => .nullData

/-- `getFile` from route.js: same photo reduce, then `video`, then
`document`, and no `audio` branch at all.  The whole body is wrapped in
try/catch returning `null`, so the empty-photo TypeError becomes `null`
here. -/
def getFile (r : TgResponse) : Option FileData :=
  if !r.ok then none
  else
    match r.result.photo with
    | some [] => none
    | some (p :: ps) =>
      let largestPhoto := reduceLargest p ps
      some ⟨largestPhoto.file_id, largestPhoto.file_unique_id⟩
    | none =>
      match r.result.video with
      | some f => some ⟨f.file_id, jsFileName f⟩
      | none =>
        match r.result.document with
        | some f => some ⟨f.file_id, jsFileName f⟩
        | none => none

/-- JavaScript `String.prototype.startsWith`, modelled on the character
lists underlying the strings. -/
def strStartsWith (s pre : String) : Bool :=
  pre.data.isPrefixOf s.data

/-- `getTelegramEndpoint` from part_000 (variant A) and part_001
(textually identical in both sources): ordered startsWith checks over
the MIME type, returning the Telegram endpoint and the multipart field
name. -/
def getTelegramEndpoint (fileType : String) : String × String :=
  if strStartsWith fileType "image/" then ("sendPhoto", "photo")
  else if strStartsWith fileType "video/" then ("sendVideo", "video")
  else if strStartsWith fileType "audio/" then ("sendAudio", "audio")
  else ("sendDocument", "document")

/-- The `fileTypeMap` object literal of route.js, as an association
list of key and `{url, type}` value, in insertion order (the order
`Object.keys` returns for string keys). -/
def fileTypeMap : List (String × String × String) :=
  [("image/", "sendPhoto", "photo"), ("video/", "sendVideo", "video"),
   ("audio/", "sendAudio", "audio"), ("application/pdf", "sendDocument", "document")]

/-- The endpoint selection of the route.js upload handler:
`Object.keys(fileTypeMap).find(key => fileType.startsWith(key))`
followed by the property lookup `fileTypeMap[key]`, and the
`defaultType` (`sendDocument`/`document`) when no key matches. -/
def routeJsEndpoint (fileType : String) : String × String :=
  match fileTypeMap.find? (fun kv => strStartsWith fileType kv.1) with
  | some kv => kv.2
  | none => ("sendDocument", "document")

/-- Modelled from the spec for comparison: the ordered prefix rule of
sections 4.3 and 8 ("image/ routes to sendPhoto, video/ to sendVideo,
audio/ to sendAudio, and every other type routes to the sendDocument
fallback"). -/
def specMimeRoute (t : String) : String :=
  if strStartsWith t "image/" then "sendPhoto"
  else if strStartsWith t "video/" then "sendVideo"
  else if strStartsWith t "audio/" then "sendAudio"
  else "sendDocument"

/-- Side-effect calls a handler can issue, recorded in program order.
`logInsert` is the tgimglog INSERT, `ratingSelect` the imginfo SELECT,
`counterIncrement` the imginfo total UPDATE, `tgUpload` the outbound
upload call to the messaging backend, `extractCall` an invocation of the
extraction helper, `ratingApiCall` the bookkeeping rating computation
and `imginfoInsert` the imginfo INSERT. -/
inductive Event
  | logInsert
  | ratingSelect
  | counterIncrement
  | tgUpload
  | extractCall
  | ratingApiCall
  | imginfoInsert
deriving Repr, DecidableEq

/-- The client-visible outcome of a retrieval request. -/
inductive GetResponse
  | fileBytes (status : Nat) (body : String) (contentDisposition : String)
  | redirect (location : String) (status : Nat)
  | jsonError (status : Nat) (message : String)
deriving Repr, DecidableEq

/-- Whether a retrieval response carries the file bytes. -/
def GetResponse.isFileBytes : GetResponse → Bool
  | .fileBytes _ _ _ => true
  | _ => false

/-- Inputs of a retrieval request: the request data plus the outcome of
every external call the handler may make.  `storeRating` is the result
of `SELECT rating FROM imginfo WHERE url = ?` (`none` = no row);
`selectThrows` models that SELECT throwing; `incrementFails` and
`logInsertFails` model the failure of the fire-and-forget UPDATE and
INSERT, which the handlers never observe. -/
structure CfileEnv where
  origin : String
  referer : String
  imgConfigured : Bool
  filePathResult : Option String
  fetchOk : Bool
  fetchStatus : Nat
  fetchErrorText : String
  fileBody : String
  storeRating : Option Int
  selectThrows : Bool
  incrementFails : Bool
  logInsertFails : Bool
deriving Repr, DecidableEq

/-- JavaScript `file_path.split('/').pop()`. -/
def lastSegment (s : String) : String :=
  (s.splitOn "/").getLastD ""

/-- `getRatingFromDb` of variant A: SELECT the rating; if a row was
found, schedule the total increment via `ctx.waitUntil`; a throwing
SELECT is caught and yields `null` (and no increment).  Returns the
rating row together with the calls issued. -/
def getRatingFromDb (storeRating : Option Int) (selectThrows : Bool) :
    Option Int × List Event :=
  if selectThrows then (none, [.ratingSelect])
  else
    match storeRating with
    | some r => (some r, [.ratingSelect, .counterIncrement])
    | none => (none, [.ratingSelect])

/-- The GET handler of variant A (first document of part_000).  Steps:
resolve the file path (502 on failure), fetch the bytes (propagate the
upstream status on failure), then the trust check
`referer.startsWith(origin + "/admin") || referer.startsWith(origin + "/list")`;
a trusted referer or an unconfigured store serves the bytes at once.
Otherwise the view log insert is scheduled, the rating is read, a rating
row equal to 3 redirects to the blocked placeholder, and anything else
(including no row) serves the bytes. -/
def cfileA_GET (e : CfileEnv) : GetResponse × List Event :=
  match e.filePathResult with
  | none => (.jsonError 502 "failed to get file path from Telegram", [])
  | some file_path =>
    if !e.fetchOk then
      (.jsonError e.fetchStatus e.fetchErrorText, [])
    else
      let fileName := lastSegment file_path
      let isAdminReferer :=
        strStartsWith e.referer (e.origin ++ "/admin") ||
        strStartsWith e.referer (e.origin ++ "/list")
      if isAdminReferer || !e.imgConfigured then
        (.fileBytes 200 e.fileBody ("inline; filename=\"" ++ fileName ++ "\""), [])
      else
        let (ratingInfo, dbEvents) := getRatingFromDb e.storeRating e.selectThrows
        let events := Event.logInsert :: dbEvents
        match ratingInfo with
        | some r =>
          if r = 3 then
            (.redirect (e.origin ++ "/img/blocked.png") 302, events)
          else
            (.fileBytes 200 e.fileBody ("inline; filename=\"" ++ fileName ++ "\""), events)
        | none =>
          (.fileBytes 200 e.fileBody ("inline; filename=\"" ++ fileName ++ "\""), events)

/-- The GET handler of variant B (second document of part_000).  The
path resolution sentinel `"error"` is modelled by `none` and yields a
500; the trust check is an exact comparison of the Referer against
`origin + "/admin"`, `origin + "/list"` and `origin + "/"`; an
untrusted request inserts the view log, reads the rating (`getRating`
returns `null` both for no row and for a throwing SELECT), and when a
row was found schedules the total increment; rating 3 redirects to the
blocked placeholder, another rating serves the bytes, and no row yields
a 404. -/
def cfileB_GET (e : CfileEnv) : GetResponse × List Event :=
  match e.filePathResult with
  | none => (.jsonError 500 "failed to get file path from Telegram", [])
  | some file_path =>
    if e.fetchOk then
      let fileName := lastSegment file_path
      if e.referer == e.origin ++ "/admin" || e.referer == e.origin ++ "/list" ||
         e.referer == e.origin ++ "/" || !e.imgConfigured then
        (.fileBytes 200 e.fileBody ("attachment; filename=" ++ fileName), [])
      else
        let rating := if e.selectThrows then none else e.storeRating
        match rating with
        | some r =>
          let events := [Event.logInsert, Event.ratingSelect, Event.counterIncrement]
          if r = 3 then
            (.redirect (e.origin ++ "/img/blocked.png") 302, events)
          else
            (.fileBytes 200 e.fileBody ("attachment; filename=" ++ fileName), events)
        | none =>
          (.jsonError 404 "rating information not found for this resource",
            [Event.logInsert, Event.ratingSelect])
    else
      (.jsonError e.fetchStatus e.fetchErrorText, [])

/-- Inputs of an upload-bookkeeping rating computation: the outcome of
the file-path resolution call, whether `env.RATINGAPI` and
`env.ModerateContentApiKey` are set, whether the rating service call
(fetch or json parse) throws, and the `rating_index` field of the
service response (`none` = absent). -/
structure RatingEnv where
  bkFilePathResult : Option String
  cfgRatingApi : Bool
  cfgModerateKey : Bool
  ratingFetchThrows : Bool
  ratingIndex : Option Int
deriving Repr, DecidableEq

/-- `getRating` from part_001: a failed path resolution yields -1 before
the configuration is examined; an unconfigured service yields 0; a
throwing service call yields -1; otherwise `data.rating_index ?? -1`. -/
def part001_getRating (e : RatingEnv) : Int :=
  match e.bkFilePathResult with
  | none => -1
  | some _ =>
    if !(e.cfgRatingApi || e.cfgModerateKey) then 0
    else if e.ratingFetchThrows then -1
    else
      match e.ratingIndex with
      | some i => i
      | none => -1

/-- `getRatingFromApi` from part_000 (variant A): the same logic as
part_001's `getRating` (the two differ only in how the service URL is
assembled, which the embedding does not track). -/
def part000_getRatingFromApi (e : RatingEnv) : Int :=
  match e.bkFilePathResult with
  | none => -1
  | some _ =>
    if !(e.cfgRatingApi || e.cfgModerateKey) then 0
    else if e.ratingFetchThrows then -1
    else
      match e.ratingIndex with
      | some i => i
      | none => -1

/-- `getRating` from route.js: `getFile_path` is called first but never
throws (it returns the string sentinel on failure) and its result only
feeds the service URL; an unconfigured service yields 0 regardless of
the resolution outcome; a throwing service call yields -1; otherwise
`data.hasOwnProperty('rating_index') ? data.rating_index : -1`. -/
def routeJs_getRating (e : RatingEnv) : Int :=
  if !(e.cfgRatingApi || e.cfgModerateKey) then 0
  else if e.ratingFetchThrows then -1
  else
    match e.ratingIndex with
    | some i => i
    | none => -1

/-- The `file` field of the multipart upload body: absent, present but
not a file object, or a file with a name and a MIME type. -/
inductive FormFileField
  | missing
  | nonFile (value : String)
  | file (fname : String) (mime : String)
deriving Repr, DecidableEq

/-- Inputs of an upload request: the request data plus the outcomes of
the upload call to the messaging backend.  `tgFetchThrows` covers the
fetch itself or the JSON parse of its body throwing; `tgHttpOk` is
`telegramResponse.ok`; `tgResult` the parsed body. -/
structure UploadEnv where
  origin : String
  fileField : FormFileField
  tgFetchThrows : Bool
  tgHttpOk : Bool
  tgResult : TgResponse
  imgConfigured : Bool
deriving Repr, DecidableEq

/-- Outcomes of the post-upload bookkeeping collaborators: the rating
computation inputs and whether the imginfo INSERT throws (it is caught
inside the insert helpers in every variant). -/
structure BookkeepingEnv where
  rating : RatingEnv
  insertThrows : Bool
deriving Repr, DecidableEq

/-- The success payload `{url, code, name}` of an upload response. -/
structure SuccessPayload where
  url : String
  code : Nat
  name : String
deriving Repr, DecidableEq

/-- The client-visible outcome of an upload request.  `success` carries
the payload plus the extra `msg` and `rating_index` fields the route.js
variant adds; `crash` is an exception escaping the handler (no response
is produced by the handler code). -/
inductive PostResponse
  | success (status : Nat) (payload : SuccessPayload)
      (msg : Option String) (ratingIndexField : Option Int)
  | errorJson (status : Nat) (message : String)
  | crash
deriving Repr, DecidableEq

/-- The HTTP status of an upload outcome, when the handler produced
one. -/
def PostResponse.statusOf : PostResponse → Option Nat
  | .success s _ _ _ => some s
  | .errorJson s _ => some s
  | .crash => none

/-- The `{url, code, name}` payload of an upload outcome, when it is a
success response. -/
def PostResponse.payloadOf : PostResponse → Option SuccessPayload
  | .success _ p _ _ => some p
  | _ => none

/-- The POST handler of part_001: reject a missing or non-file `file`
field with a 400 before any outbound call; upload to the endpoint
chosen by `getTelegramEndpoint` (a throwing fetch or JSON parse is
caught by the outer try, 500); a non-ok HTTP status or `ok: false`
body yields a 502 without invoking extraction; a null extraction yields
a 500 and a throwing one is caught by the outer try (500); otherwise
the 200 response is returned at once and the bookkeeping (rating
computation plus imginfo insert, only when the store is configured)
runs afterwards under `ctx.waitUntil`, unobserved by the response. -/
def part001_POST (e : UploadEnv) (bk : BookkeepingEnv) :
    PostResponse × List Event :=
  match e.fileField with
  | .missing => (.errorJson 400 "File not provided or is invalid.", [])
  | .nonFile _ => (.errorJson 400 "File not provided or is invalid.", [])
  | .file _fname mime =>
    let _endpointAndField := getTelegramEndpoint mime
    if e.tgFetchThrows then
      (.errorJson 500 "An unexpected error occurred", [.tgUpload])
    else if !e.tgHttpOk || !e.tgResult.ok then
      (.errorJson 502 "Failed to upload file to Telegram.", [.tgUpload])
    else
      match extractFileData e.tgResult with
      | .thrown => (.errorJson 500 "An unexpected error occurred", [.tgUpload, .extractCall])
      | .nullData => (.errorJson 500 "Could not process Telegram response.", [.tgUpload, .extractCall])
      | .ok fd =>
        let payload : SuccessPayload :=
          ⟨e.origin ++ "/api/cfile/" ++ fd.file_id, 200, fd.file_name⟩
        let _ratingIndex := part001_getRating bk.rating
        let bkEvents := if e.imgConfigured then [Event.ratingApiCall, Event.imginfoInsert] else []
        (.success 200 payload none none, [Event.tgUpload, Event.extractCall] ++ bkEvents)

/-- The POST handler of variant A (first document of part_000): the same
control flow as part_001's POST, with `getRatingFromApi` as the rating
computation. -/
def part000_POST (e : UploadEnv) (bk : BookkeepingEnv) :
    PostResponse × List Event :=
  match e.fileField with
  | .missing => (.errorJson 400 "file not provided or invalid", [])
  | .nonFile _ => (.errorJson 400 "file not provided or invalid", [])
  | .file _fname mime =>
    let _endpointAndField := getTelegramEndpoint mime
    if e.tgFetchThrows then
      (.errorJson 500 "unexpected error", [.tgUpload])
    else if !e.tgHttpOk || !e.tgResult.ok then
      (.errorJson 502 "failed to upload file to Telegram", [.tgUpload])
    else
      match extractFileData e.tgResult with
      | .thrown => (.errorJson 500 "unexpected error", [.tgUpload, .extractCall])
      | .nullData => (.errorJson 500 "could not process the Telegram response", [.tgUpload, .extractCall])
      | .ok fd =>
        let payload : SuccessPayload :=
          ⟨e.origin ++ "/api/cfile/" ++ fd.file_id, 200, fd.file_name⟩
        let _ratingIndex := part000_getRatingFromApi bk.rating
        let bkEvents := if e.imgConfigured then [Event.ratingApiCall, Event.imginfoInsert] else []
        (.success 200 payload none none, [Event.tgUpload, Event.extractCall] ++ bkEvents)

/-- The POST handler of route.js.  There is no validation of the `file`
field and the formData handling sits before the try block: a missing
field makes `formData.get('file').type` throw, and a non-file field
leaves `fileType` undefined so the `startsWith` inside the key search
throws; both exceptions escape the handler (`crash`) before any
outbound call.  Inside the try, a throwing fetch or JSON parse yields a
500; `getFile` is invoked on the parsed body before any `ok` check
(`res_img.ok` is never consulted); a null extraction yields a 500 with
the raw backend body; otherwise, with no store configured a 200 with
`msg: "1"` is returned, and with a store the rating computation, the
time formatting and the imginfo insert are awaited (each swallows its
own failures, so the inner catch that would return a 500 is
unreachable) and a 200 with `msg: "2"` and the computed `rating_index`
is returned. -/
def routeJs_POST (e : UploadEnv) (bk : BookkeepingEnv) :
    PostResponse × List Event :=
  match e.fileField with
  | .missing => (.crash, [])
  | .nonFile _ => (.crash, [])
  | .file _fname mime =>
    let _endpointAndField := routeJsEndpoint mime
    if e.tgFetchThrows then
      (.errorJson 500 "unexpected error", [.tgUpload])
    else
      match getFile e.tgResult with
      | none =>
        (.errorJson 500 "Failed to upload file to Telegram.", [.tgUpload, .extractCall])
      | some fd =>
        let payload : SuccessPayload :=
          ⟨e.origin ++ "/api/cfile/" ++ fd.file_id, 200, fd.file_name⟩
        if !e.imgConfigured then
          (.success 200 payload (some "1") none, [.tgUpload, .extractCall])
        else
          let rating_index := routeJs_getRating bk.rating
          (.success 200 payload (some "2") (some rating_index),
            [.tgUpload, .extractCall, .ratingApiCall, .imginfoInsert])

/-- Claim C7: for every MIME type string the endpoint selection is a
total function following the ordered prefix rule exactly: image/ routes
to sendPhoto, video/ to sendVideo, audio/ to sendAudio, and every other
type (unknown and empty types included) routes to the sendDocument
fallback, in the part_000/part_001 variant (`getTelegramEndpoint`) and
in the route.js variant (`routeJsEndpoint`) alike. -/
theorem mime_routing_follows_rule (t : String) :
    (getTelegramEndpoint t).1 = specMimeRoute t ∧
    (routeJsEndpoint t).1 = specMimeRoute t := by
  refine ⟨?_, ?_⟩
  · unfold getTelegramEndpoint specMimeRoute
    cases h1 : strStartsWith t "image/" <;> cases h2 : strStartsWith t "video/" <;>
      cases h3 : strStartsWith t "audio/" <;> simp [h1, h2, h3]
  · unfold routeJsEndpoint specMimeRoute fileTypeMap
    cases h1 : strStartsWith t "image/" <;> cases h2 : strStartsWith t "video/" <;>
      cases h3 : strStartsWith t "audio/" <;> cases h4 : strStartsWith t "application/pdf" <;>
      simp [List.find?_cons, h1, h2, h3, h4]

theorem reduceLargest_cons (p c : PhotoSize) (cs : List PhotoSize) :
    reduceLargest p (c :: cs) =
      reduceLargest (if p.file_size > c.file_size then p else c) cs := rfl

theorem reduceLargest_mem (p : PhotoSize) (ps : List PhotoSize) :
    reduceLargest p ps ∈ p :: ps := by
  induction ps generalizing p with
  | nil => simp [reduceLargest]
  | cons c cs ih =>
    rw [reduceLargest_cons]
    by_cases hpc : p.file_size > c.file_size
    · rw [if_pos hpc]
      rcases List.mem_cons.mp (ih p) with h | h
      · rw [h]; exact List.mem_cons_self ..
      · exact List.mem_cons_of_mem _ (List.mem_cons_of_mem _ h)
    · rw [if_neg hpc]
      rcases List.mem_cons.mp (ih c) with h | h
      · rw [h]; exact List.mem_cons_of_mem _ (List.mem_cons_self ..)
      · exact List.mem_cons_of_mem _ (List.mem_cons_of_mem _ h)

theorem reduceLargest_max (p : PhotoSize) (ps : List PhotoSize) :
    ∀ x ∈ p :: ps, x.file_size ≤ (reduceLargest p ps).file_size := by
  induction ps generalizing p with
  | nil =>
    intro x hx
    rcases List.mem_cons.mp hx with h | h
    · rw [h]; exact Nat.le_refl _
    · cases h
  | cons c cs ih =>
    intro x hx
    rw [reduceLargest_cons]
    by_cases hpc : p.file_size > c.file_size
    · rw [if_pos hpc]
      rcases List.mem_cons.mp hx with h | h
      · rw [h]; exact ih p p (List.mem_cons_self ..)
      · rcases List.mem_cons.mp h with h2 | h2
        · rw [h2]
          exact Nat.le_trans (Nat.le_of_lt hpc) (ih p p (List.mem_cons_self ..))
        · exact ih p x (List.mem_cons_of_mem _ h2)
    · rw [if_neg hpc]
      rcases List.mem_cons.mp hx with h | h
      · rw [h]
        exact Nat.le_trans (Nat.le_of_not_lt hpc) (ih c c (List.mem_cons_self ..))
      · rcases List.mem_cons.mp h with h2 | h2
        · rw [h2]; exact ih c c (List.mem_cons_self ..)
        · exact ih c x (List.mem_cons_of_mem _ h2)

theorem reduceLargest_lastmax (p : PhotoSize) (ps : List PhotoSize) :
    (p :: ps).reverse.find?
        (fun x => x.file_size == (reduceLargest p ps).file_size) =
      some (reduceLargest p ps) := by
  induction ps generalizing p with
  | nil => simp [reduceLargest, List.find?]
  | cons c cs ih =>
    rw [reduceLargest_cons]
    by_cases hpc : p.file_size > c.file_size
    · rw [if_pos hpc]
      have ihp := ih p
      rw [List.reverse_cons, List.find?_append] at ihp
      have hrev : (p :: c :: cs).reverse = cs.reverse ++ [c, p] := by simp
      rw [hrev, List.find?_append]
      cases hcs : cs.reverse.find?
          (fun x => x.file_size == (reduceLargest p cs).file_size) with
      | some y =>
        rw [hcs] at ihp
        rw [Option.or_some] at ihp
        rw [Option.or_some]
        exact ihp
      | none =>
        rw [hcs, Option.none_or] at ihp
        rw [Option.none_or]
        have hcne : (c.file_size == (reduceLargest p cs).file_size) = false := by
          refine beq_eq_false_iff_ne.mpr (Nat.ne_of_lt ?_)
          exact Nat.lt_of_lt_of_le hpc (reduceLargest_max p cs p (List.mem_cons_self ..))
        simp only [List.find?_cons, hcne]
        exact ihp
    · rw [if_neg hpc]
      have ihc := ih c
      rw [List.reverse_cons, List.find?_append] at ihc
      have hrev : (p :: c :: cs).reverse = (cs.reverse ++ [c]) ++ [p] := by simp
      rw [hrev, List.find?_append, List.find?_append]
      cases hcs : cs.reverse.find?
          (fun x => x.file_size == (reduceLargest c cs).file_size) with
      | some y =>
        rw [hcs] at ihc
        rw [Option.or_some] at ihc
        rw [Option.or_some, Option.or_some]
        exact ihc
      | none =>
        rw [hcs, Option.none_or] at ihc
        rw [Option.none_or, ihc]
        exact Option.or_some

/-- First photo entry of the tie counterexample. -/
def tiePhotoA : PhotoSize := ⟨"idA", "uidA", 5000⟩

/-- Second photo entry of the tie counterexample, with the same
`file_size` as the first. -/
def tiePhotoB : PhotoSize := ⟨"idB", "uidB", 5000⟩

/-- A successful photo-upload backend response whose two size options
tie on exact `file_size`. -/
def tieResponse : TgResponse :=
  ⟨true, ⟨some [tiePhotoA, tiePhotoB], none, none, none⟩⟩

/-- Claim C2 counterexample: on an exact `file_size` tie the extraction
step of every variant returns the second (last-seen) entry, not the
first-seen one the claim names: the strict greater-than keeps `prev`
only when it is strictly larger, so a tie replaces it with `current`. -/
theorem photo_tie_first_seen_fails :
    extractFileData tieResponse = .ok ⟨"idB", "uidB"⟩ ∧
    extractFileData tieResponse ≠ .ok ⟨"idA", "uidA"⟩ ∧
    getFile tieResponse = some ⟨"idB", "uidB"⟩ := by
  refine ⟨by decide, by decide, by decide⟩

/-- Claim C2 (amended): for every successful photo-upload backend
response with a non-empty list of photo size options, the extraction
step selects an entry with the largest `file_size`, and when entries tie
on exact `file_size` the last-seen one wins (the comparison being strict
greater-than, a tie replaces the accumulator); the returned name is that
entry's `file_unique_id`.  The selected entry is a member of the list,
no member is strictly larger, and it is the last member attaining the
maximal size (the first match in the reversed list). -/
theorem extract_photo_picks_last_largest (r : TgResponse) (p : PhotoSize)
    (ps : List PhotoSize) (hok : r.ok = true)
    (hph : r.result.photo = some (p :: ps)) :
    extractFileData r =
      .ok ⟨(reduceLargest p ps).file_id, (reduceLargest p ps).file_unique_id⟩ ∧
    getFile r =
      some ⟨(reduceLargest p ps).file_id, (reduceLargest p ps).file_unique_id⟩ ∧
    reduceLargest p ps ∈ p :: ps ∧
    (∀ x ∈ p :: ps, x.file_size ≤ (reduceLargest p ps).file_size) ∧
    (p :: ps).reverse.find?
        (fun x => x.file_size == (reduceLargest p ps).file_size) =
      some (reduceLargest p ps) := by
  refine ⟨?_, ?_, reduceLargest_mem p ps, reduceLargest_max p ps,
    reduceLargest_lastmax p ps⟩
  · simp [extractFileData, hok, hph]
  · simp [getFile, hok, hph]

/-- First photo entry of the witness response. -/
def photoW1 : PhotoSize := ⟨"id1", "uid1", 1000⟩

/-- Remaining photo entries of the witness response. -/
def photoWRest : List PhotoSize :=
  [⟨"id2", "uid2", 5000⟩, ⟨"id3", "uid3", 3000⟩]

/-- A successful photo-upload backend response with three photo sizes of
1000, 5000 and 3000 bytes. -/
def photoWResponse : TgResponse :=
  ⟨true, ⟨some (photoW1 :: photoWRest), none, none, none⟩⟩

/-- Witness for the amended claim C2 at a concrete response: the
5000-byte entry is selected. -/
theorem extract_photo_picks_last_largest_witness :
    (extractFileData photoWResponse =
      .ok ⟨(reduceLargest photoW1 photoWRest).file_id,
           (reduceLargest photoW1 photoWRest).file_unique_id⟩ ∧
    getFile photoWResponse =
      some ⟨(reduceLargest photoW1 photoWRest).file_id,
            (reduceLargest photoW1 photoWRest).file_unique_id⟩ ∧
    reduceLargest photoW1 photoWRest ∈ photoW1 :: photoWRest ∧
    (∀ x ∈ photoW1 :: photoWRest,
      x.file_size ≤ (reduceLargest photoW1 photoWRest).file_size) ∧
    (photoW1 :: photoWRest).reverse.find?
        (fun x => x.file_size == (reduceLargest photoW1 photoWRest).file_size) =
      some (reduceLargest photoW1 photoWRest)) ∧
    reduceLargest photoW1 photoWRest = ⟨"id2", "uid2", 5000⟩ := by
  refine ⟨extract_photo_picks_last_largest photoWResponse photoW1 photoWRest rfl rfl, ?_⟩
  decide

/-- Witness for claim C7 at a concrete MIME type. -/
theorem mime_routing_follows_rule_witness :
    (getTelegramEndpoint "image/png").1 = specMimeRoute "image/png" ∧
    (routeJsEndpoint "image/png").1 = specMimeRoute "image/png" :=
  mime_routing_follows_rule "image/png"

/-- Claim C1: a retrieval whose Referer is not on the trusted
allow-list, when the rating store holds a record with rating exactly 3
for the retrieval path (and the SELECT reading it succeeds), never
returns the file bytes in either retrieval variant, and whenever the
identifier resolves and the byte fetch succeeds the response is a 302
redirect to the static blocked placeholder. -/
theorem untrusted_rating3_redirects_blocked (e : CfileEnv)
    (hcfg : e.imgConfigured = true)
    (hsel : e.selectThrows = false)
    (hrat : e.storeRating = some 3)
    (huA1 : strStartsWith e.referer (e.origin ++ "/admin") = false)
    (huA2 : strStartsWith e.referer (e.origin ++ "/list") = false)
    (huB1 : (e.referer == e.origin ++ "/admin") = false)
    (huB2 : (e.referer == e.origin ++ "/list") = false)
    (huB3 : (e.referer == e.origin ++ "/") = false) :
    (cfileA_GET e).1.isFileBytes = false ∧
    (cfileB_GET e).1.isFileBytes = false ∧
    (∀ p, e.filePathResult = some p → e.fetchOk = true →
      (cfileA_GET e).1 = .redirect (e.origin ++ "/img/blocked.png") 302 ∧
      (cfileB_GET e).1 = .redirect (e.origin ++ "/img/blocked.png") 302) := by
  cases hfp : e.filePathResult with
  | none =>
    simp [cfileA_GET, cfileB_GET, hfp, GetResponse.isFileBytes]
  | some p =>
    cases hok : e.fetchOk <;>
      simp [cfileA_GET, cfileB_GET, getRatingFromDb, hfp, hok, hcfg, hsel, hrat,
        huA1, huA2, huB1, huB2, huB3, GetResponse.isFileBytes]

/-- A concrete retrieval environment with an untrusted referer and a
stored rating of 3. -/
def blockedEnv : CfileEnv :=
  { origin := "https://img.example"
    referer := "https://evil.example/page"
    imgConfigured := true
    filePathResult := some "photos/file_42.jpg"
    fetchOk := true
    fetchStatus := 200
    fetchErrorText := ""
    fileBody := "JPEGBYTES"
    storeRating := some 3
    selectThrows := false
    incrementFails := false
    logInsertFails := false }

set_option maxRecDepth 8192 in
/-- Witness for claim C1 at a concrete blocked retrieval. -/
theorem untrusted_rating3_redirects_blocked_witness :
    (cfileA_GET blockedEnv).1.isFileBytes = false ∧
    (cfileB_GET blockedEnv).1.isFileBytes = false ∧
    (∀ p, blockedEnv.filePathResult = some p → blockedEnv.fetchOk = true →
      (cfileA_GET blockedEnv).1 =
        .redirect (blockedEnv.origin ++ "/img/blocked.png") 302 ∧
      (cfileB_GET blockedEnv).1 =
        .redirect (blockedEnv.origin ++ "/img/blocked.png") 302) :=
  untrusted_rating3_redirects_blocked blockedEnv rfl rfl rfl
    (by decide) (by decide) (by decide) (by decide) (by decide)

/-- Claim C6: a retrieval with a resolvable identifier whose Referer
matches the trusted allow-list issues no log-insert and no rating-store
query at all (even with the store configured), and serves the bytes
immediately whenever the byte fetch succeeds — in variant A under its
startsWith allow-list, in variant B under its exact-match allow-list. -/
theorem trusted_referer_skips_log_and_rating (e : CfileEnv) (p : String)
    (hfp : e.filePathResult = some p)
    (_hcfg : e.imgConfigured = true) :
    ((strStartsWith e.referer (e.origin ++ "/admin") ||
      strStartsWith e.referer (e.origin ++ "/list")) = true →
      (cfileA_GET e).2 = [] ∧
      (e.fetchOk = true →
        (cfileA_GET e).1 =
          .fileBytes 200 e.fileBody ("inline; filename=\"" ++ lastSegment p ++ "\""))) ∧
    ((e.referer == e.origin ++ "/admin" || e.referer == e.origin ++ "/list" ||
      e.referer == e.origin ++ "/") = true →
      (cfileB_GET e).2 = [] ∧
      (e.fetchOk = true →
        (cfileB_GET e).1 =
          .fileBytes 200 e.fileBody ("attachment; filename=" ++ lastSegment p))) := by
  constructor
  · intro htrust
    cases hok : e.fetchOk <;>
      simp [cfileA_GET, hfp, hok, htrust]
  · intro htrust
    cases hok : e.fetchOk <;>
      simp [cfileB_GET, hfp, hok, htrust]

/-- A concrete retrieval environment with a trusted (admin) referer and
a configured store holding a blocking rating. -/
def trustedEnv : CfileEnv :=
  { origin := "https://img.example"
    referer := "https://img.example/admin"
    imgConfigured := true
    filePathResult := some "photos/file_42.jpg"
    fetchOk := true
    fetchStatus := 200
    fetchErrorText := ""
    fileBody := "JPEGBYTES"
    storeRating := some 3
    selectThrows := false
    incrementFails := false
    logInsertFails := false }

set_option maxRecDepth 8192 in
/-- Witness for claim C6 at a concrete trusted retrieval. -/
theorem trusted_referer_skips_log_and_rating_witness :
    (cfileA_GET trustedEnv).2 = [] ∧
    (cfileB_GET trustedEnv).2 = [] ∧
    (cfileA_GET trustedEnv).1 =
      .fileBytes 200 trustedEnv.fileBody
        ("inline; filename=\"" ++ lastSegment "photos/file_42.jpg" ++ "\"") ∧
    (cfileB_GET trustedEnv).1 =
      .fileBytes 200 trustedEnv.fileBody
        ("attachment; filename=" ++ lastSegment "photos/file_42.jpg") := by
  have h := trusted_referer_skips_log_and_rating trustedEnv "photos/file_42.jpg" rfl rfl
  have hA := h.1 (by decide)
  have hB := h.2 (by decide)
  exact ⟨hA.1, hB.1, hA.2 rfl, hB.2 rfl⟩

/-- Claim C8: in both retrieval variants at most one rating-counter
increment is issued per retrieval; one is issued only when the rating
SELECT succeeded and found a record; and the failure of the
fire-and-forget increment never changes the HTTP response computed for
the request. -/
theorem counter_increment_once_and_harmless (e : CfileEnv) :
    (cfileA_GET e).2.count .counterIncrement ≤ 1 ∧
    (cfileB_GET e).2.count .counterIncrement ≤ 1 ∧
    (Event.counterIncrement ∈ (cfileA_GET e).2 →
      e.selectThrows = false ∧ ∃ r, e.storeRating = some r) ∧
    (Event.counterIncrement ∈ (cfileB_GET e).2 →
      e.selectThrows = false ∧ ∃ r, e.storeRating = some r) ∧
    (∀ b, (cfileA_GET { e with incrementFails := b }).1 = (cfileA_GET e).1 ∧
          (cfileB_GET { e with incrementFails := b }).1 = (cfileB_GET e).1) := by
  obtain ⟨org, ref, cfg, fp, fok, fst, ferr, body, sr, st, incf, lif⟩ := e
  cases fp <;> cases fok <;> cases cfg <;> cases st <;> cases sr <;>
    simp [cfileA_GET, cfileB_GET, getRatingFromDb] <;>
    first
    | rfl
    | (split_ifs <;> simp_all)

/-- Witness for claim C8 at a concrete untrusted blocked retrieval. -/
theorem counter_increment_once_and_harmless_witness :
    (cfileA_GET blockedEnv).2.count .counterIncrement ≤ 1 ∧
    (cfileB_GET blockedEnv).2.count .counterIncrement ≤ 1 :=
  ⟨(counter_increment_once_and_harmless blockedEnv).1,
   (counter_increment_once_and_harmless blockedEnv).2.1⟩

/-- Claim C3: when the upload to the backend succeeded and extraction
yields a file identity, the client-visible response of every upload
variant is the 200 success payload `{url, code, name}` no matter how the
bookkeeping collaborators behave — a failing rating fetch, a failing
path resolution or a throwing imginfo insert (every value of the
bookkeeping environment) never changes the status or the payload. -/
theorem bookkeeping_failure_preserves_200 (e : UploadEnv) (nm mime : String)
    (fd : FileData)
    (hf : e.fileField = .file nm mime)
    (hthrow : e.tgFetchThrows = false)
    (hhttp : e.tgHttpOk = true)
    (hok : e.tgResult.ok = true)
    (hex : extractFileData e.tgResult = .ok fd)
    (hgf : getFile e.tgResult = some fd) :
    ∀ bk : BookkeepingEnv,
      (part000_POST e bk).1.statusOf = some 200 ∧
      (part000_POST e bk).1.payloadOf =
        some ⟨e.origin ++ "/api/cfile/" ++ fd.file_id, 200, fd.file_name⟩ ∧
      (part001_POST e bk).1.statusOf = some 200 ∧
      (part001_POST e bk).1.payloadOf =
        some ⟨e.origin ++ "/api/cfile/" ++ fd.file_id, 200, fd.file_name⟩ ∧
      (routeJs_POST e bk).1.statusOf = some 200 ∧
      (routeJs_POST e bk).1.payloadOf =
        some ⟨e.origin ++ "/api/cfile/" ++ fd.file_id, 200, fd.file_name⟩ := by
  intro bk
  cases hcfg : e.imgConfigured <;>
    simp [part000_POST, part001_POST, routeJs_POST, hf, hthrow, hhttp, hok,
      hex, hgf, hcfg, PostResponse.statusOf, PostResponse.payloadOf]

/-- The document object of the successful-upload environment. -/
def uploadDocFile : TgFile := ⟨"doc_id_1", "doc_uid_1", some "report.pdf"⟩

/-- A successful document upload environment. -/
def uploadOkEnv : UploadEnv :=
  { origin := "https://img.example"
    fileField := .file "report.pdf" "application/pdf"
    tgFetchThrows := false
    tgHttpOk := true
    tgResult := ⟨true, ⟨none, none, some uploadDocFile, none⟩⟩
    imgConfigured := true }

/-- A bookkeeping environment in which everything fails: the path
resolution, the rating service call and the imginfo insert. -/
def failingBk : BookkeepingEnv :=
  { rating :=
      { bkFilePathResult := none
        cfgRatingApi := true
        cfgModerateKey := false
        ratingFetchThrows := true
        ratingIndex := none }
    insertThrows := true }

/-- Witness for claim C3: a concrete successful upload with every
bookkeeping step failing still produces the 200 success payload in all
three variants. -/
theorem bookkeeping_failure_preserves_200_witness :
    (part000_POST uploadOkEnv failingBk).1.statusOf = some 200 ∧
    (part000_POST uploadOkEnv failingBk).1.payloadOf =
      some ⟨uploadOkEnv.origin ++ "/api/cfile/" ++ "doc_id_1", 200, "report.pdf"⟩ ∧
    (part001_POST uploadOkEnv failingBk).1.statusOf = some 200 ∧
    (part001_POST uploadOkEnv failingBk).1.payloadOf =
      some ⟨uploadOkEnv.origin ++ "/api/cfile/" ++ "doc_id_1", 200, "report.pdf"⟩ ∧
    (routeJs_POST uploadOkEnv failingBk).1.statusOf = some 200 ∧
    (routeJs_POST uploadOkEnv failingBk).1.payloadOf =
      some ⟨uploadOkEnv.origin ++ "/api/cfile/" ++ "doc_id_1", 200, "report.pdf"⟩ :=
  bookkeeping_failure_preserves_200 uploadOkEnv "report.pdf" "application/pdf"
    ⟨"doc_id_1", "report.pdf"⟩ rfl rfl rfl rfl (by decide) (by decide) failingBk

/-- An upload environment whose multipart body has no `file` field. -/
def missingFileEnv : UploadEnv :=
  { origin := "https://img.example"
    fileField := .missing
    tgFetchThrows := false
    tgHttpOk := true
    tgResult := ⟨true, ⟨none, none, none, none⟩⟩
    imgConfigured := true }

/-- A bookkeeping environment in which every collaborator behaves. -/
def idleBk : BookkeepingEnv :=
  { rating :=
      { bkFilePathResult := some "documents/file.bin"
        cfgRatingApi := false
        cfgModerateKey := false
        ratingFetchThrows := false
        ratingIndex := none }
    insertThrows := false }

/-- Claim C4 counterexample: in the route.js upload variant a request
with no `file` field does not get a 4xx response — the handler performs
no validation, `formData.get('file').type` throws outside the try block
and the exception escapes the handler, so no response is produced by it
at all (the platform turns this into a 500-level failure, not a 4xx).
It is still true that no outbound call is made. -/
theorem routejs_missing_file_no_4xx :
    (routeJs_POST missingFileEnv idleBk).1 = .crash ∧
    (routeJs_POST missingFileEnv idleBk).1.statusOf = none ∧
    (routeJs_POST missingFileEnv idleBk).2 = [] := by
  refine ⟨by decide, by decide, by decide⟩

/-- Claim C4 (amended): an upload whose multipart body has no `file`
field or whose `file` field is not a file object is rejected with a 400
before any outbound call in the part_000 and part_001 variants; the
route.js variant also makes no outbound call, but instead of a 4xx it
throws an unhandled exception (no handler response at all). -/
theorem missing_file_rejected_before_upload (e : UploadEnv) (bk : BookkeepingEnv)
    (h : e.fileField = .missing ∨ ∃ v, e.fileField = .nonFile v) :
    (part000_POST e bk).1.statusOf = some 400 ∧
    Event.tgUpload ∉ (part000_POST e bk).2 ∧
    (part001_POST e bk).1.statusOf = some 400 ∧
    Event.tgUpload ∉ (part001_POST e bk).2 ∧
    (routeJs_POST e bk).1 = .crash ∧
    Event.tgUpload ∉ (routeJs_POST e bk).2 := by
  rcases h with h | ⟨v, h⟩ <;>
    simp [part000_POST, part001_POST, routeJs_POST, h, PostResponse.statusOf]

/-- Witness for the amended claim C4 at a concrete request without a
file field. -/
theorem missing_file_rejected_before_upload_witness :
    (part000_POST missingFileEnv idleBk).1.statusOf = some 400 ∧
    Event.tgUpload ∉ (part000_POST missingFileEnv idleBk).2 ∧
    (part001_POST missingFileEnv idleBk).1.statusOf = some 400 ∧
    Event.tgUpload ∉ (part001_POST missingFileEnv idleBk).2 ∧
    (routeJs_POST missingFileEnv idleBk).1 = .crash ∧
    Event.tgUpload ∉ (routeJs_POST missingFileEnv idleBk).2 :=
  missing_file_rejected_before_upload missingFileEnv idleBk (Or.inl rfl)

/-- An upload environment in which the backend body reports
`ok: false`. -/
def notOkEnv : UploadEnv :=
  { origin := "https://img.example"
    fileField := .file "cat.jpg" "image/jpeg"
    tgFetchThrows := false
    tgHttpOk := false
    tgResult := ⟨false, ⟨none, none, none, none⟩⟩
    imgConfigured := true }

/-- Claim C5 counterexample: in the route.js variant the extraction
helper is invoked on an `ok: false` backend response — `getFile` is
called before any ok check — so extraction is attempted (it returns
null because of its internal ok guard and the handler answers 500,
which is indeed not a 200). -/
theorem routejs_not_ok_still_invokes_extraction :
    Event.extractCall ∈ (routeJs_POST notOkEnv idleBk).2 ∧
    (routeJs_POST notOkEnv idleBk).1.statusOf = some 500 := by
  refine ⟨by decide, by decide⟩

/-- Claim C5 (amended): on every upload that carried a file and whose
backend response body carries `ok: false`, the part_000 and part_001
variants return a 502 without invoking the extraction helper, while the
route.js variant does invoke its extraction helper (whose internal
guard returns null without reading the result payload) and returns a
500 — so no variant ever returns a 200. -/
theorem not_ok_never_200 (e : UploadEnv) (bk : BookkeepingEnv)
    (nm mime : String)
    (hf : e.fileField = .file nm mime)
    (hthrow : e.tgFetchThrows = false)
    (hok : e.tgResult.ok = false) :
    (part000_POST e bk).1.statusOf = some 502 ∧
    Event.extractCall ∉ (part000_POST e bk).2 ∧
    (part001_POST e bk).1.statusOf = some 502 ∧
    Event.extractCall ∉ (part001_POST e bk).2 ∧
    Event.extractCall ∈ (routeJs_POST e bk).2 ∧
    (routeJs_POST e bk).1.statusOf = some 500 ∧
    (part000_POST e bk).1.statusOf ≠ some 200 ∧
    (part001_POST e bk).1.statusOf ≠ some 200 ∧
    (routeJs_POST e bk).1.statusOf ≠ some 200 := by
  simp [part000_POST, part001_POST, routeJs_POST, getFile, hf, hthrow, hok,
    PostResponse.statusOf]

/-- Witness for the amended claim C5 at a concrete `ok: false`
response. -/
theorem not_ok_never_200_witness :
    (part000_POST notOkEnv idleBk).1.statusOf = some 502 ∧
    Event.extractCall ∉ (part000_POST notOkEnv idleBk).2 ∧
    (part001_POST notOkEnv idleBk).1.statusOf = some 502 ∧
    Event.extractCall ∉ (part001_POST notOkEnv idleBk).2 ∧
    Event.extractCall ∈ (routeJs_POST notOkEnv idleBk).2 ∧
    (routeJs_POST notOkEnv idleBk).1.statusOf = some 500 ∧
    (part000_POST notOkEnv idleBk).1.statusOf ≠ some 200 ∧
    (part001_POST notOkEnv idleBk).1.statusOf ≠ some 200 ∧
    (routeJs_POST notOkEnv idleBk).1.statusOf ≠ some 200 :=
  not_ok_never_200 notOkEnv idleBk "cat.jpg" "image/jpeg" rfl rfl rfl

/-- The rating environment of the C9 counterexample: no moderation key,
no custom base URL, and a failing file-path resolution. -/
def unresolvedUnconfigured : RatingEnv :=
  { bkFilePathResult := none
    cfgRatingApi := false
    cfgModerateKey := false
    ratingFetchThrows := false
    ratingIndex := none }

/-- Claim C9 counterexample: with no moderation key and no custom
rating-API base URL configured, the part_000/part_001 rating helpers do
not always compute 0 — when the file-path resolution fails they return
-1 before ever looking at the configuration, contradicting the claimed
unconditional neutral rating. -/
theorem rating_unconfigured_but_unresolved_not_zero :
    part001_getRating unresolvedUnconfigured = -1 ∧
    part000_getRatingFromApi unresolvedUnconfigured = -1 ∧
    part001_getRating unresolvedUnconfigured ≠ 0 := by
  refine ⟨by decide, by decide, by decide⟩

/-- Claim C9 (amended): in the part_000/part_001 rating helpers the
path-resolution check comes first: a failed resolution yields -1 even
when no rating service is configured; when the path resolves, an
unconfigured service yields 0 and a configured one yields -1 on a
failed call or a response without a rating index.  In the route.js
helper the configuration check comes first: an unconfigured service
yields 0 regardless of resolution, and a configured one yields -1 on a
failed call or a missing rating index.  The part_000 and part_001
helpers agree everywhere. -/
theorem rating_helper_outcomes (e : RatingEnv) :
    (part000_getRatingFromApi e = part001_getRating e) ∧
    (e.bkFilePathResult = none → part001_getRating e = -1) ∧
    (∀ p, e.bkFilePathResult = some p → e.cfgRatingApi = false →
      e.cfgModerateKey = false → part001_getRating e = 0) ∧
    (∀ p, e.bkFilePathResult = some p →
      (e.cfgRatingApi = true ∨ e.cfgModerateKey = true) →
      (e.ratingFetchThrows = true ∨ e.ratingIndex = none) →
      part001_getRating e = -1) ∧
    (e.cfgRatingApi = false → e.cfgModerateKey = false →
      routeJs_getRating e = 0) ∧
    ((e.cfgRatingApi = true ∨ e.cfgModerateKey = true) →
      (e.ratingFetchThrows = true ∨ e.ratingIndex = none) →
      routeJs_getRating e = -1) := by
  obtain ⟨fpr, cra, cmk, rft, rix⟩ := e
  cases fpr <;> cases cra <;> cases cmk <;> cases rft <;> cases rix <;>
    simp [part001_getRating, part000_getRatingFromApi, routeJs_getRating]

/-- A rating environment with a resolved path and no configured
service. -/
def resolvedUnconfigured : RatingEnv :=
  { bkFilePathResult := some "documents/file.bin"
    cfgRatingApi := false
    cfgModerateKey := false
    ratingFetchThrows := false
    ratingIndex := none }

/-- Witness for the amended claim C9: with a resolved path and no
configured service both helper families compute 0. -/
theorem rating_helper_outcomes_witness :
    part001_getRating resolvedUnconfigured = 0 ∧
    routeJs_getRating resolvedUnconfigured = 0 :=
  ⟨(rating_helper_outcomes resolvedUnconfigured).2.2.1 "documents/file.bin" rfl rfl rfl,
   (rating_helper_outcomes resolvedUnconfigured).2.2.2.2.1 rfl rfl⟩

/-- Claim C10: the route.js extraction helper checks only photo, video
and document and has no audio branch: on a successful backend response
whose result carries only an `audio` object, `getFile` returns null and
the route.js handler answers a 500 server error with no success
payload, even though the upload succeeded — while the part_000/part_001
extractor does handle this shape. -/
theorem routejs_audio_extraction_gap (e : UploadEnv) (bk : BookkeepingEnv)
    (nm mime : String) (f : TgFile)
    (hf : e.fileField = .file nm mime)
    (hthrow : e.tgFetchThrows = false)
    (hok : e.tgResult.ok = true)
    (hph : e.tgResult.result.photo = none)
    (hvid : e.tgResult.result.video = none)
    (hdoc : e.tgResult.result.document = none)
    (haud : e.tgResult.result.audio = some f) :
    getFile e.tgResult = none ∧
    (routeJs_POST e bk).1.statusOf = some 500 ∧
    (routeJs_POST e bk).1.payloadOf = none ∧
    extractFileData e.tgResult = .ok ⟨f.file_id, jsFileName f⟩ := by
  have hgf : getFile e.tgResult = none := by
    simp [getFile, hok, hph, hvid, hdoc]
  refine ⟨hgf, ?_, ?_, ?_⟩
  · simp [routeJs_POST, hf, hthrow, hgf, PostResponse.statusOf]
  · simp [routeJs_POST, hf, hthrow, hgf, PostResponse.payloadOf]
  · simp [extractFileData, hok, hph, hvid, hdoc, haud]

/-- The audio object of the C10 witness. -/
def audioFile : TgFile := ⟨"aud_id_1", "aud_uid_1", none⟩

/-- A successful audio upload environment: the backend result carries
only the `audio` object, the shape the sendAudio endpoint returns. -/
def audioOnlyEnv : UploadEnv :=
  { origin := "https://img.example"
    fileField := .file "song.mp3" "audio/mpeg"
    tgFetchThrows := false
    tgHttpOk := true
    tgResult := ⟨true, ⟨none, none, none, some audioFile⟩⟩
    imgConfigured := true }

/-- Witness for claim C10 at a concrete audio upload: audio MIME types
are routed to sendAudio, yet the route.js extractor misses the audio
shape and the handler answers 500. -/
theorem routejs_audio_extraction_gap_witness :
    (routeJsEndpoint "audio/mpeg").1 = "sendAudio" ∧
    (getFile audioOnlyEnv.tgResult = none ∧
     (routeJs_POST audioOnlyEnv idleBk).1.statusOf = some 500 ∧
     (routeJs_POST audioOnlyEnv idleBk).1.payloadOf = none ∧
     extractFileData audioOnlyEnv.tgResult =
       .ok ⟨audioFile.file_id, jsFileName audioFile⟩) :=
  ⟨by decide,
   routejs_audio_extraction_gap audioOnlyEnv idleBk "song.mp3" "audio/mpeg"
     audioFile rfl rfl rfl rfl rfl rfl rfl⟩

end TgImg
